import Mathlib

/-!
Shallow embedding of the media-service domain entities `UploadSession`
(src/unnamed/part_004) and `ProcessingJob`
(src/src/domain/entities/ProcessingJob.ts), together with theorems about
their state machines.

Modelling conventions:
- `Date` values are modelled as `Nat` timestamps; every mutating entity
  method takes an extra `now : Nat` argument standing for `new Date()`.
- TypeScript `number` fields holding counters and byte sizes are modelled
  as `Int` (the source performs no range validation on them).
- Methods that `throw` are modelled as `Except String` returning the error
  message; since the source throws before any mutation, an `error` result
  means the caller's entity is unchanged.
- `Record<string, any>` parameter bags are modelled as partial maps
  `String → Option String`; the claims never inspect parameter values.
- `UploadSession.create` spreads `{...defaultProps, ...props}`: a key
  present in `props` overrides the default.  This is modelled by giving the
  defaulted fields of the props argument type `Option`: `some v` is a key
  present with value `v`, `none` is an absent key that falls back to the
  default.
-/

/-- Decidable equality on `Except`, so that concrete runs of the fallible
entity methods can be checked by evaluation. -/
instance {ε α : Type} [DecidableEq ε] [DecidableEq α] : DecidableEq (Except ε α) := by
  intro a b
  cases a <;> cases b
  case error.error e1 e2 =>
    exact if h : e1 = e2 then .isTrue (by rw [h]) else .isFalse (by simp [h])
  case ok.ok a1 a2 =>
    exact if h : a1 = a2 then .isTrue (by rw [h]) else .isFalse (by simp [h])
  all_goals exact .isFalse (by simp)

namespace MediaService

/-- Status enum of `UploadSession` (part_004, `UploadSessionStatus`). -/
inductive UploadSessionStatus where
  | active
  | completed
  | failed
  | aborted
deriving DecidableEq, Repr

/-- The property bag of a live `UploadSession` (part_004, `UploadSessionProps`). -/
structure UploadSession where
  userId : String
  sessionToken : String
  totalChunks : Int
  uploadedChunks : Int
  totalSizeBytes : Int
  currentSizeBytes : Int
  status : UploadSessionStatus
  expiresAt : Nat
  createdAt : Nat
  updatedAt : Nat
deriving DecidableEq, Repr

/-- Argument of `UploadSession.create`.  Fields that `create` defaults
(`uploadedChunks`, `currentSizeBytes`, `status`, `createdAt`, `updatedAt`)
are `Option`: `none` models a key absent from the JavaScript object, so the
spread `{...defaultProps, ...props}` keeps the default. -/
structure UploadSessionCreateProps where
  userId : String
  sessionToken : String
  totalChunks : Int
  totalSizeBytes : Int
  expiresAt : Nat
  uploadedChunks : Option Int
  currentSizeBytes : Option Int
  status : Option UploadSessionStatus
  createdAt : Option Nat
  updatedAt : Option Nat
deriving DecidableEq, Repr

/-- `UploadSession.create(props)` (part_004 lines 29-42): merges
`defaultProps` under `props`; a key present in `props` wins. -/
def UploadSession.create (props : UploadSessionCreateProps) (now : Nat) : UploadSession :=
  { userId := props.userId
    sessionToken := props.sessionToken
    totalChunks := props.totalChunks
    totalSizeBytes := props.totalSizeBytes
    expiresAt := props.expiresAt
    uploadedChunks := props.uploadedChunks.getD 0
    currentSizeBytes := props.currentSizeBytes.getD 0
    status := props.status.getD UploadSessionStatus.active
    createdAt := props.createdAt.getD now
    updatedAt := props.updatedAt.getD now }

/-- Getter `isCompleted` (part_004): `status === COMPLETED`. -/
def UploadSession.isCompleted (s : UploadSession) : Bool :=
  match s.status with
  | .completed => true
  | _ => false

/-- Getter `isActive` (part_004): `status === ACTIVE`. -/
def UploadSession.isActive (s : UploadSession) : Bool :=
  match s.status with
  | .active => true
  | _ => false

/-- `UploadSession.complete()` (part_004 lines 72-79): no-op when already
completed, otherwise sets `COMPLETED` and touches `updatedAt`. -/
def UploadSession.complete (s : UploadSession) (now : Nat) : UploadSession :=
  if s.isCompleted then s
  else { s with status := UploadSessionStatus.completed, updatedAt := now }

/-- `UploadSession.fail()` (part_004 lines 81-84): unconditionally sets
`FAILED` and touches `updatedAt`. -/
def UploadSession.fail (s : UploadSession) (now : Nat) : UploadSession :=
  { s with status := UploadSessionStatus.failed, updatedAt := now }

/-- `UploadSession.abort()` (part_004 lines 86-89): unconditionally sets
`ABORTED` and touches `updatedAt`. -/
def UploadSession.abort (s : UploadSession) (now : Nat) : UploadSession :=
  { s with status := UploadSessionStatus.aborted, updatedAt := now }

/-- `UploadSession.addChunk(chunkSize)` (part_004 lines 91-103): throws on a
non-active session; otherwise increments `uploadedChunks`, adds `chunkSize`
to `currentSizeBytes`, touches `updatedAt`, and auto-completes once
`uploadedChunks >= totalChunks`. -/
def UploadSession.addChunk (s : UploadSession) (chunkSize : Int) (now : Nat) :
    Except String UploadSession :=
  if !s.isActive then
    Except.error "Cannot add chunk to a non-active upload session"
  else
    let s1 : UploadSession :=
      { s with uploadedChunks := s.uploadedChunks + 1
               currentSizeBytes := s.currentSizeBytes + chunkSize
               updatedAt := now }
    if s1.uploadedChunks ≥ s1.totalChunks then Except.ok (s1.complete now)
    else Except.ok s1

/-- Status enum of `ProcessingJob` (ProcessingJob.ts, `ProcessingJobStatus`). -/
inductive ProcessingJobStatus where
  | pending
  | processing
  | completed
  | failed
deriving DecidableEq, Repr

/-- The property bag of a `ProcessingJob` (ProcessingJob.ts,
`ProcessingJobProps`).  `parameters` is a partial map modelling the
`Record<string, any>` bag. -/
structure ProcessingJob where
  mediaFileId : Option String
  jobType : String
  status : ProcessingJobStatus
  parameters : String → Option String
  progressPercentage : Int
  errorMessage : Option String
  startedAt : Option Nat
  completedAt : Option Nat
  createdAt : Nat
  updatedAt : Nat

/-- Getter `isCompleted` (ProcessingJob.ts lines 57-59):
`status === COMPLETED || status === FAILED`. -/
def ProcessingJob.isCompleted (j : ProcessingJob) : Bool :=
  match j.status with
  | .completed => true
  | .failed => true
  | _ => false

/-- `ProcessingJob.start()` (ProcessingJob.ts lines 61-69): throws unless
`PENDING`; otherwise sets `PROCESSING`, records `startedAt`, touches
`updatedAt`. -/
def ProcessingJob.start (j : ProcessingJob) (now : Nat) : Except String ProcessingJob :=
  if j.status ≠ ProcessingJobStatus.pending then
    Except.error "Only pending jobs can be started"
  else
    Except.ok { j with status := ProcessingJobStatus.processing
                       startedAt := some now
                       updatedAt := now }

/-- `ProcessingJob.complete()` (ProcessingJob.ts lines 71-80): no-op when
already `COMPLETED`; otherwise sets `COMPLETED`, `progressPercentage = 100`,
`completedAt`, `updatedAt`. -/
def ProcessingJob.complete (j : ProcessingJob) (now : Nat) : ProcessingJob :=
  if j.status = ProcessingJobStatus.completed then j
  else { j with status := ProcessingJobStatus.completed
                progressPercentage := 100
                completedAt := some now
                updatedAt := now }

/-- `ProcessingJob.fail(error)` (ProcessingJob.ts lines 82-87):
unconditionally sets `FAILED`, records `error.message`, `completedAt`,
`updatedAt`. -/
def ProcessingJob.fail (j : ProcessingJob) (errMsg : String) (now : Nat) : ProcessingJob :=
  { j with status := ProcessingJobStatus.failed
           errorMessage := some errMsg
           completedAt := some now
           updatedAt := now }

/-- `ProcessingJob.updateProgress(percentage)` (ProcessingJob.ts lines
89-100): silent no-op once terminal; throws when the percentage is outside
`[0, 100]`; otherwise records it. -/
def ProcessingJob.updateProgress (j : ProcessingJob) (percentage : Int) (now : Nat) :
    Except String ProcessingJob :=
  if j.isCompleted then Except.ok j
  else if percentage < 0 ∨ percentage > 100 then
    Except.error "Progress percentage must be between 0 and 100"
  else
    Except.ok { j with progressPercentage := percentage, updatedAt := now }

/-- `ProcessingJob.updateParameters(parameters)` (ProcessingJob.ts lines
102-112): no-op once terminal; otherwise shallow-merges the patch over the
existing bag (`{...old, ...patch}`: a key present in the patch wins). -/
def ProcessingJob.updateParameters (j : ProcessingJob) (patch : String → Option String)
    (now : Nat) : ProcessingJob :=
  if j.isCompleted then j
  else { j with parameters := fun k =>
                  match patch k with
                  | some v => some v
                  | none => j.parameters k
                updatedAt := now }

/-! Helper lemmas about the boolean getters and `complete`. -/

theorem UploadSession.isActive_eq_false {s : UploadSession}
    (h : s.status ≠ UploadSessionStatus.active) : s.isActive = false := by
  cases hs : s.status
  · exact absurd hs h
  all_goals simp [UploadSession.isActive, hs]

theorem UploadSession.isCompleted_eq_completed (s : UploadSession) :
    s.isCompleted = true ↔ s.status = UploadSessionStatus.completed := by
  cases hs : s.status <;> simp [UploadSession.isCompleted, hs]

theorem UploadSession.complete_of_isCompleted (s : UploadSession) (t : Nat)
    (h : s.isCompleted = true) : s.complete t = s := by
  simp [UploadSession.complete, h]

theorem UploadSession.isCompleted_complete (s : UploadSession) (t : Nat) :
    (s.complete t).isCompleted = true := by
  cases h : s.isCompleted
  · simp only [UploadSession.complete, h, Bool.false_eq_true, if_false]
    rfl
  · simp [UploadSession.complete, h]

theorem UploadSession.complete_status_completed (s : UploadSession) (t : Nat) :
    (s.complete t).status = UploadSessionStatus.completed := by
  have := s.isCompleted_complete t
  rwa [UploadSession.isCompleted_eq_completed] at this

theorem ProcessingJob.complete_sets_completed (j : ProcessingJob) (t : Nat) :
    (j.complete t).status = ProcessingJobStatus.completed := by
  by_cases h : j.status = ProcessingJobStatus.completed
  · simp [ProcessingJob.complete, h]
  · simp [ProcessingJob.complete, h]

theorem ProcessingJob.complete_of_completed (j : ProcessingJob) (t : Nat)
    (h : j.status = ProcessingJobStatus.completed) : j.complete t = j := by
  simp [ProcessingJob.complete, h]

theorem ProcessingJob.isCompleted_eq_terminal (j : ProcessingJob) :
    j.isCompleted = true ↔
      (j.status = ProcessingJobStatus.completed ∨ j.status = ProcessingJobStatus.failed) := by
  cases hs : j.status <;> simp [ProcessingJob.isCompleted, hs]

/-! Concrete fixtures used by scenario theorems and witnesses. -/

/-- Props of the happy-path scenario: `totalChunks = 3`, `totalSizeBytes =
300`, all defaulted keys absent. -/
def c3props : UploadSessionCreateProps :=
  { userId := "user-1"
    sessionToken := "tok-1"
    totalChunks := 3
    totalSizeBytes := 300
    expiresAt := 1000
    uploadedChunks := none
    currentSizeBytes := none
    status := none
    createdAt := none
    updatedAt := none }

/-- The freshly created 3-chunk session, at time 0. -/
def c3s0 : UploadSession := UploadSession.create c3props 0

/-- Expected session after the first `addChunk(100)` at time 1. -/
def c3s1 : UploadSession :=
  { userId := "user-1"
    sessionToken := "tok-1"
    totalChunks := 3
    uploadedChunks := 1
    totalSizeBytes := 300
    currentSizeBytes := 100
    status := UploadSessionStatus.active
    expiresAt := 1000
    createdAt := 0
    updatedAt := 1 }

/-- Expected session after the second `addChunk(100)` at time 2. -/
def c3s2 : UploadSession :=
  { c3s1 with uploadedChunks := 2, currentSizeBytes := 200, updatedAt := 2 }

/-- Expected session after the third `addChunk(100)` at time 3: the chunk
that reaches the target count auto-completes the session. -/
def c3s3 : UploadSession :=
  { c3s1 with uploadedChunks := 3, currentSizeBytes := 300
              status := UploadSessionStatus.completed, updatedAt := 3 }

/-- A `ProcessingJob` in the initial `PENDING` state. -/
def pendingJob : ProcessingJob :=
  { mediaFileId := none
    jobType := "resize"
    status := ProcessingJobStatus.pending
    parameters := fun _ => none
    progressPercentage := 0
    errorMessage := none
    startedAt := none
    completedAt := none
    createdAt := 0
    updatedAt := 0 }

/-- A `ProcessingJob` in the terminal `COMPLETED` state. -/
def completedJob : ProcessingJob :=
  { pendingJob with status := ProcessingJobStatus.completed
                    progressPercentage := 100
                    completedAt := some 2
                    updatedAt := 2 }

/-- A `ProcessingJob` in the terminal `FAILED` state. -/
def failedJob : ProcessingJob :=
  { pendingJob with status := ProcessingJobStatus.failed
                    errorMessage := some "boom"
                    completedAt := some 2
                    updatedAt := 2 }

/-- C3: creating a session with `totalChunks = 3`, `totalSizeBytes = 300`
and calling `addChunk(100)` three times yields `uploadedChunks = 1/2/3`
with status `ACTIVE`, `ACTIVE`, `COMPLETED`; the third chunk auto-completes
the session with `currentSizeBytes = 300`, with no separate finalize
call. -/
theorem uploadSession_three_chunk_scenario :
    c3s0.uploadedChunks = 0 ∧ c3s0.status = UploadSessionStatus.active ∧
    c3s0.addChunk 100 1 = Except.ok c3s1 ∧
    c3s1.uploadedChunks = 1 ∧ c3s1.status = UploadSessionStatus.active ∧
    c3s1.addChunk 100 2 = Except.ok c3s2 ∧
    c3s2.uploadedChunks = 2 ∧ c3s2.status = UploadSessionStatus.active ∧
    c3s2.addChunk 100 3 = Except.ok c3s3 ∧
    c3s3.uploadedChunks = 3 ∧ c3s3.status = UploadSessionStatus.completed ∧
    c3s3.currentSizeBytes = 300 := by
  decide

/-- C4: `addChunk` on a session whose status is not `ACTIVE` signals the
error "Cannot add chunk to a non-active upload session"; the error is
raised before any mutation, so the session is unchanged.  In particular,
after the 3-chunk completion scenario the 4th `addChunk(50)` is rejected
and the session still has `uploadedChunks = 3`, `currentSizeBytes =
300`. -/
theorem addChunk_rejected_nonactive :
    (∀ (s : UploadSession) (c : Int) (t : Nat), s.status ≠ UploadSessionStatus.active →
       s.addChunk c t = Except.error "Cannot add chunk to a non-active upload session") ∧
    c3s3.status = UploadSessionStatus.completed ∧
    c3s3.addChunk 50 4 = Except.error "Cannot add chunk to a non-active upload session" ∧
    c3s3.uploadedChunks = 3 ∧ c3s3.currentSizeBytes = 300 := by
  refine ⟨fun s c t h => ?_, by decide, by decide, by decide, by decide⟩
  simp [UploadSession.addChunk, UploadSession.isActive_eq_false h]

/-- Witness for C4: the rejection theorem applied to the completed 3-chunk
session. -/
theorem addChunk_rejected_nonactive_witness :
    c3s3.addChunk 50 4 = Except.error "Cannot add chunk to a non-active upload session" :=
  addChunk_rejected_nonactive.1 c3s3 50 4 (by decide)

/-- C6: calling `complete()` twice, on any `UploadSession` and on any
`ProcessingJob`, yields exactly the same state as calling it once — the
second call is a no-op, whatever the starting state. -/
theorem complete_twice_eq_once (s : UploadSession) (j : ProcessingJob) (t1 t2 t3 t4 : Nat) :
    (s.complete t1).complete t2 = s.complete t1 ∧
    (j.complete t3).complete t4 = j.complete t3 :=
  ⟨UploadSession.complete_of_isCompleted _ t2 (s.isCompleted_complete t1),
   ProcessingJob.complete_of_completed _ t4 (j.complete_sets_completed t3)⟩

/-- C7: `ProcessingJob.start()` succeeds (setting `PROCESSING` and
recording `startedAt`) exactly when the status is `PENDING`; for every
other status it signals "Only pending jobs can be started" and, since the
error precedes any mutation, leaves the job unchanged. -/
theorem start_succeeds_iff_pending (j : ProcessingJob) (t : Nat) :
    (j.status = ProcessingJobStatus.pending →
       j.start t = Except.ok { j with status := ProcessingJobStatus.processing
                                      startedAt := some t
                                      updatedAt := t }) ∧
    (j.status ≠ ProcessingJobStatus.pending →
       j.start t = Except.error "Only pending jobs can be started") := by
  constructor
  · intro h
    simp [ProcessingJob.start, h]
  · intro h
    simp [ProcessingJob.start, h]

/-- Witness for C7: a pending job starts; a completed job is rejected. -/
theorem start_succeeds_iff_pending_witness :
    pendingJob.start 5 = Except.ok { pendingJob with status := ProcessingJobStatus.processing
                                                     startedAt := some 5
                                                     updatedAt := 5 } ∧
    completedJob.start 5 = Except.error "Only pending jobs can be started" :=
  ⟨(start_succeeds_iff_pending pendingJob 5).1 rfl,
   (start_succeeds_iff_pending completedJob 5).2 (by decide)⟩

/-- C8: for a job in `PENDING` or `PROCESSING` state, `updateProgress(p)`
records every `p` with `0 ≤ p ≤ 100` and signals "Progress percentage must
be between 0 and 100" for every out-of-range `p`; for a job in `COMPLETED`
or `FAILED` state it is a silent no-op for every `p`, in-range or not. -/
theorem updateProgress_bounds (j : ProcessingJob) (p : Int) (t : Nat) :
    (j.status = ProcessingJobStatus.pending ∨ j.status = ProcessingJobStatus.processing →
       (0 ≤ p ∧ p ≤ 100 →
          j.updateProgress p t = Except.ok { j with progressPercentage := p, updatedAt := t }) ∧
       (p < 0 ∨ p > 100 →
          j.updateProgress p t =
            Except.error "Progress percentage must be between 0 and 100")) ∧
    (j.status = ProcessingJobStatus.completed ∨ j.status = ProcessingJobStatus.failed →
       j.updateProgress p t = Except.ok j) := by
  refine ⟨fun hs => ⟨fun hin => ?_, fun hout => ?_⟩, fun ht => ?_⟩
  · have hc : j.isCompleted = false := by
      rcases hs with h | h <;> simp [ProcessingJob.isCompleted, h]
    have hr : ¬(p < 0 ∨ p > 100) := by omega
    simp [ProcessingJob.updateProgress, hc, hr]
  · have hc : j.isCompleted = false := by
      rcases hs with h | h <;> simp [ProcessingJob.isCompleted, h]
    simp [ProcessingJob.updateProgress, hc, hout]
  · have hc : j.isCompleted = true := by
      rcases ht with h | h <;> simp [ProcessingJob.isCompleted, h]
    simp [ProcessingJob.updateProgress, hc]

/-- Witness for C8: a pending job records progress 50; a completed job
silently ignores the out-of-range value 500. -/
theorem updateProgress_bounds_witness :
    pendingJob.updateProgress 50 1 =
      Except.ok { pendingJob with progressPercentage := 50, updatedAt := 1 } ∧
    completedJob.updateProgress 500 1 = Except.ok completedJob :=
  ⟨((updateProgress_bounds pendingJob 50 1).1 (Or.inl rfl)).1 ⟨by decide, by decide⟩,
   (updateProgress_bounds completedJob 500 1).2 (Or.inl rfl)⟩

/-! Field-preservation lemmas for `complete`, and the `isActive` getter. -/

theorem UploadSession.isActive_iff (s : UploadSession) :
    s.isActive = true ↔ s.status = UploadSessionStatus.active := by
  cases hs : s.status <;> simp [UploadSession.isActive, hs]

theorem UploadSession.complete_uploadedChunks (s : UploadSession) (t : Nat) :
    (s.complete t).uploadedChunks = s.uploadedChunks := by
  cases h : s.isCompleted <;> simp [UploadSession.complete, h]

theorem UploadSession.complete_totalChunks (s : UploadSession) (t : Nat) :
    (s.complete t).totalChunks = s.totalChunks := by
  cases h : s.isCompleted <;> simp [UploadSession.complete, h]

theorem UploadSession.complete_currentSizeBytes (s : UploadSession) (t : Nat) :
    (s.complete t).currentSizeBytes = s.currentSizeBytes := by
  cases h : s.isCompleted <;> simp [UploadSession.complete, h]

/-- C1 counterexample: the 3-chunk session finished in the terminal
`COMPLETED` state, yet `fail()` moves its status to `FAILED` — an operation
does change a terminal session's status, so terminal states do admit
transitions out. -/
theorem uploadSession_terminal_fail_counterexample :
    c3s3.status = UploadSessionStatus.completed ∧
    (c3s3.fail 4).status = UploadSessionStatus.failed ∧
    (c3s3.fail 4).status ≠ c3s3.status := by
  decide

/-- C1 (amended): for every `UploadSession` in a terminal state
(`COMPLETED`, `FAILED` or `ABORTED`, i.e. status ≠ `ACTIVE`), `addChunk` is
rejected with "Cannot add chunk to a non-active upload session" and changes
nothing, and no operation ever returns the session to `ACTIVE`; however
`fail()` and `abort()` unconditionally set `FAILED`/`ABORTED` even from
another terminal state, and `complete()` sets `COMPLETED` from `FAILED` or
`ABORTED`. -/
theorem uploadSession_terminal_closure (s : UploadSession) (c : Int) (t : Nat)
    (h : s.status ≠ UploadSessionStatus.active) :
    s.addChunk c t = Except.error "Cannot add chunk to a non-active upload session" ∧
    (s.complete t).status = UploadSessionStatus.completed ∧
    (s.fail t).status = UploadSessionStatus.failed ∧
    (s.abort t).status = UploadSessionStatus.aborted ∧
    (s.complete t).status ≠ UploadSessionStatus.active ∧
    (s.fail t).status ≠ UploadSessionStatus.active ∧
    (s.abort t).status ≠ UploadSessionStatus.active := by
  refine ⟨?_, s.complete_status_completed t, rfl, rfl, ?_, ?_, ?_⟩
  · simp [UploadSession.addChunk, UploadSession.isActive_eq_false h]
  · rw [s.complete_status_completed t]
    simp
  · simp [UploadSession.fail]
  · simp [UploadSession.abort]

/-- Witness for C1: the amended closure theorem applied to the completed
3-chunk session. -/
theorem uploadSession_terminal_closure_witness :
    c3s3.addChunk 7 5 = Except.error "Cannot add chunk to a non-active upload session" ∧
    (c3s3.complete 5).status = UploadSessionStatus.completed ∧
    (c3s3.fail 5).status = UploadSessionStatus.failed ∧
    (c3s3.abort 5).status = UploadSessionStatus.aborted :=
  have h := uploadSession_terminal_closure c3s3 7 5 (by decide)
  ⟨h.1, h.2.1, h.2.2.1, h.2.2.2.1⟩

/-- C2 counterexample: a `FAILED` (terminal) job is moved to `COMPLETED` by
`complete()` — its guard only checks for `COMPLETED`, so a failed job is
resurrected into a successful one. -/
theorem processingJob_terminal_complete_counterexample :
    failedJob.status = ProcessingJobStatus.failed ∧
    (failedJob.complete 3).status = ProcessingJobStatus.completed ∧
    (failedJob.complete 3).status ≠ failedJob.status := by
  refine ⟨rfl, by decide, by decide⟩

/-- C2 (amended): for every `ProcessingJob` in a terminal state
(`COMPLETED` or `FAILED`), `start` is rejected with "Only pending jobs can
be started", `updateProgress` and `updateParameters` are silent no-ops, and
no operation returns the job to `PENDING` or `PROCESSING`; however
`complete()` sets `COMPLETED` from `FAILED` and `fail()` sets `FAILED` from
`COMPLETED`, so the two terminal states are not closed against each
other. -/
theorem processingJob_terminal_closure (j : ProcessingJob) (e : String)
    (patch : String → Option String) (p : Int) (t : Nat)
    (h : j.status = ProcessingJobStatus.completed ∨ j.status = ProcessingJobStatus.failed) :
    j.start t = Except.error "Only pending jobs can be started" ∧
    j.updateProgress p t = Except.ok j ∧
    j.updateParameters patch t = j ∧
    (j.complete t).status = ProcessingJobStatus.completed ∧
    (j.fail e t).status = ProcessingJobStatus.failed := by
  have hc : j.isCompleted = true := (ProcessingJob.isCompleted_eq_terminal j).mpr h
  have hnp : j.status ≠ ProcessingJobStatus.pending := by
    rcases h with h | h <;> simp [h]
  refine ⟨?_, ?_, ?_, j.complete_sets_completed t, rfl⟩
  · simp [ProcessingJob.start, hnp]
  · simp [ProcessingJob.updateProgress, hc]
  · simp [ProcessingJob.updateParameters, hc]

/-- Witness for C2: the amended closure theorem applied to the failed
job. -/
theorem processingJob_terminal_closure_witness :
    failedJob.start 9 = Except.error "Only pending jobs can be started" ∧
    failedJob.updateProgress 55 9 = Except.ok failedJob ∧
    failedJob.updateParameters (fun _ => none) 9 = failedJob :=
  have h := processingJob_terminal_closure failedJob "err" (fun _ => none) 55 9 (Or.inr rfl)
  ⟨h.1, h.2.1, h.2.2.1⟩

/-- Props in which every defaulted key is present, as the Prisma
repository's `toDomain` supplies them when reconstituting a persisted
session. -/
def c5props : UploadSessionCreateProps :=
  { userId := "user-2"
    sessionToken := "tok-2"
    totalChunks := 4
    totalSizeBytes := 400
    expiresAt := 500
    uploadedChunks := some 5
    currentSizeBytes := some 123
    status := some UploadSessionStatus.completed
    createdAt := some 7
    updatedAt := some 8 }

/-- C5 counterexample: `create` spreads `{...defaultProps, ...props}`, so a
key present in `props` overrides the default — with `uploadedChunks = 5` and
`status = COMPLETED` in the props, the created session does not have
`uploadedChunks = 0`, `status = ACTIVE`, or `createdAt = now`. -/
theorem create_props_override_counterexample :
    (UploadSession.create c5props 0).uploadedChunks = 5 ∧
    (UploadSession.create c5props 0).currentSizeBytes = 123 ∧
    (UploadSession.create c5props 0).status = UploadSessionStatus.completed ∧
    (UploadSession.create c5props 0).createdAt = 7 ∧
    (UploadSession.create c5props 0).uploadedChunks ≠ 0 := by
  decide

/-- C5 (amended): `create(props)` takes each of `uploadedChunks`,
`currentSizeBytes`, `status`, `createdAt`, `updatedAt` from `props` when
the key is present; only for keys absent from `props` do the defaults
`0`, `0`, `ACTIVE`, now, now apply — in particular a caller supplying only
`totalChunks`, `totalSizeBytes`, `expiresAt`, `sessionToken`, `userId` gets
a fresh `ACTIVE` session with zeroed counters and timestamps set to now. -/
theorem create_defaults_when_absent (props : UploadSessionCreateProps) (now : Nat)
    (h1 : props.uploadedChunks = none) (h2 : props.currentSizeBytes = none)
    (h3 : props.status = none) (h4 : props.createdAt = none)
    (h5 : props.updatedAt = none) :
    (UploadSession.create props now).uploadedChunks = 0 ∧
    (UploadSession.create props now).currentSizeBytes = 0 ∧
    (UploadSession.create props now).status = UploadSessionStatus.active ∧
    (UploadSession.create props now).createdAt = now ∧
    (UploadSession.create props now).updatedAt = now := by
  simp [UploadSession.create, h1, h2, h3, h4, h5]

/-- Witness for C5 (amended): the defaults hold for the scenario props,
which omit every defaulted key. -/
theorem create_defaults_when_absent_witness :
    (UploadSession.create c3props 0).uploadedChunks = 0 ∧
    (UploadSession.create c3props 0).currentSizeBytes = 0 ∧
    (UploadSession.create c3props 0).status = UploadSessionStatus.active ∧
    (UploadSession.create c3props 0).createdAt = 0 ∧
    (UploadSession.create c3props 0).updatedAt = 0 :=
  create_defaults_when_absent c3props 0 rfl rfl rfl rfl rfl

/-- The session obtained from `c3s1` by `addChunk(-50)`: the byte counter
drops from 100 to 50. -/
def c9decreased : UploadSession :=
  { c3s1 with uploadedChunks := 2, currentSizeBytes := 50, updatedAt := 4 }

/-- C9 counterexample: `addChunk` performs no validation of `chunkSize`, so
an active session accepts `addChunk(-50)` and its `currentSizeBytes`
strictly decreases — accumulation is not monotone for every accepted
chunk size. -/
theorem addChunk_negative_counterexample :
    c3s1.status = UploadSessionStatus.active ∧
    c3s1.addChunk (-50) 4 = Except.ok c9decreased ∧
    c9decreased.currentSizeBytes < c3s1.currentSizeBytes := by
  decide

/-- C9 (amended): for every `UploadSession` and every nonnegative
`chunkSize` accepted by `addChunk`, `currentSizeBytes` after the call is at
least `currentSizeBytes` before; `addChunk` does not validate `chunkSize`,
so the restriction to nonnegative sizes is necessary. -/
theorem addChunk_monotone_nonneg (s : UploadSession) (c : Int) (t : Nat)
    (s' : UploadSession) (hc : 0 ≤ c) (h : s.addChunk c t = Except.ok s') :
    s.currentSizeBytes ≤ s'.currentSizeBytes := by
  rw [UploadSession.addChunk] at h
  cases ha : s.isActive
  · rw [ha] at h
    simp at h
  · rw [ha] at h
    simp only [Bool.not_true, Bool.false_eq_true, if_false] at h
    split at h
    · injection h with h
      subst h
      rw [UploadSession.complete_currentSizeBytes]
      simp
      omega
    · injection h with h
      subst h
      simp
      omega

/-- Witness for C9 (amended): the first chunk of the happy-path scenario
does not decrease the byte counter. -/
theorem addChunk_monotone_nonneg_witness :
    c3s0.currentSizeBytes ≤ c3s1.currentSizeBytes :=
  addChunk_monotone_nonneg c3s0 100 1 c3s1 (by decide) (by decide)

/-! Sequences of entity operations, for the chunk-counter invariant. -/

/-- One of the four mutating `UploadSession` entity operations. -/
inductive SessionOp where
  | addChunkOp (chunkSize : Int)
  | completeOp
  | failOp
  | abortOp
deriving DecidableEq, Repr

/-- Apply one operation at time `t`.  A thrown error leaves the session
unchanged: the source throws before mutating anything. -/
def applySessionOp (s : UploadSession) : SessionOp → Nat → UploadSession
  | .addChunkOp c, t =>
    match s.addChunk c t with
    | .ok s' => s'
    | .error _ => s
  | .completeOp, t => s.complete t
  | .failOp, t => s.fail t
  | .abortOp, t => s.abort t

/-- Apply a sequence of timed operations from left to right. -/
def runSessionOps (s : UploadSession) : List (SessionOp × Nat) → UploadSession
  | [] => s
  | (op, t) :: rest => runSessionOps (applySessionOp s op t) rest

/-- The inductive invariant: the chunk counter never exceeds the target,
and strictly so while the session is still `ACTIVE`. -/
def chunkInv (s : UploadSession) : Prop :=
  s.uploadedChunks ≤ s.totalChunks ∧
    (s.status = UploadSessionStatus.active → s.uploadedChunks < s.totalChunks)

/-- Every single entity operation preserves the chunk-counter invariant. -/
theorem chunkInv_applySessionOp (s : UploadSession) (op : SessionOp) (t : Nat)
    (h : chunkInv s) : chunkInv (applySessionOp s op t) := by
  obtain ⟨h1, h2⟩ := h
  cases op with
  | addChunkOp c =>
    cases ha : s.isActive
    · simp [applySessionOp, UploadSession.addChunk, ha]
      exact ⟨h1, h2⟩
    · have hlt := h2 ((UploadSession.isActive_iff s).mp ha)
      simp only [applySessionOp, UploadSession.addChunk, ha, Bool.not_true,
        Bool.false_eq_true, if_false]
      by_cases hge : s.uploadedChunks + 1 ≥ s.totalChunks
      · simp only [hge, if_pos]
        refine ⟨?_, ?_⟩
        · rw [UploadSession.complete_uploadedChunks, UploadSession.complete_totalChunks]
          simp
          omega
        · intro hst
          rw [UploadSession.complete_status_completed] at hst
          simp at hst
      · simp only [hge, if_neg, not_false_iff]
        refine ⟨by simp; omega, fun _ => by simp; omega⟩
  | completeOp =>
    refine ⟨?_, ?_⟩
    · simp only [applySessionOp]
      rw [UploadSession.complete_uploadedChunks, UploadSession.complete_totalChunks]
      exact h1
    · intro hst
      simp only [applySessionOp] at hst
      rw [UploadSession.complete_status_completed] at hst
      simp at hst
  | failOp =>
    exact ⟨h1, fun hst => by simp [applySessionOp, UploadSession.fail] at hst⟩
  | abortOp =>
    exact ⟨h1, fun hst => by simp [applySessionOp, UploadSession.abort] at hst⟩

/-- The invariant is preserved by every sequence of operations. -/
theorem chunkInv_runSessionOps (l : List (SessionOp × Nat)) (s : UploadSession)
    (h : chunkInv s) : chunkInv (runSessionOps s l) := by
  induction l generalizing s with
  | nil => exact h
  | cons p rest ih =>
    obtain ⟨op, t⟩ := p
    simp only [runSessionOps]
    exact ih _ (chunkInv_applySessionOp s op t h)

/-- C10: a session created `ACTIVE` with `uploadedChunks = 0` and
`totalChunks ≥ 1` satisfies `uploadedChunks ≤ totalChunks` after every
sequence of entity operations: the `addChunk` that reaches the target
auto-completes the session, and later `addChunk` calls are rejected before
mutating, so the counter never overshoots. -/
theorem uploadedChunks_le_totalChunks (props : UploadSessionCreateProps) (now : Nat)
    (l : List (SessionOp × Nat)) (h0 : props.uploadedChunks = none)
    (_hs : props.status = none) (h1 : 1 ≤ props.totalChunks) :
    (runSessionOps (UploadSession.create props now) l).uploadedChunks ≤
      (runSessionOps (UploadSession.create props now) l).totalChunks := by
  have hinv : chunkInv (UploadSession.create props now) := by
    constructor
    · simp [UploadSession.create, h0]
      omega
    · intro _
      simp [UploadSession.create, h0]
      omega
  exact (chunkInv_runSessionOps l _ hinv).1

/-- Props of the invariant witness: a fresh 2-chunk session. -/
def c10props : UploadSessionCreateProps :=
  { c3props with userId := "user-10", sessionToken := "tok-10", totalChunks := 2 }

/-- Witness for C10: three `addChunk` calls (one past the target) followed
by `fail` never push the counter past `totalChunks = 2`. -/
theorem uploadedChunks_le_totalChunks_witness :
    (runSessionOps (UploadSession.create c10props 0)
        [(SessionOp.addChunkOp 10, 1), (SessionOp.addChunkOp 20, 2),
         (SessionOp.addChunkOp 30, 3), (SessionOp.failOp, 4)]).uploadedChunks ≤
      (runSessionOps (UploadSession.create c10props 0)
        [(SessionOp.addChunkOp 10, 1), (SessionOp.addChunkOp 20, 2),
         (SessionOp.addChunkOp 30, 3), (SessionOp.failOp, 4)]).totalChunks :=
  uploadedChunks_le_totalChunks c10props 0
    [(SessionOp.addChunkOp 10, 1), (SessionOp.addChunkOp 20, 2),
     (SessionOp.addChunkOp 30, 3), (SessionOp.failOp, 4)] rfl rfl (by decide)

end MediaService
